import Mathlib

/-!
Verification of the media-wall moderation state slice
(`src/app/reducers/api-media-wall-response.ts`).

The reducer itself is translated directly from the TypeScript source.
The filter helper functions (`accountExclusion`, `profanityFilter`,
`removeDuplicateCheck`, `hideFeed`, `showFeed`, `accountInclusion`,
`removeId`) are imported by the source from `../models`, whose code is
not part of this listing; they are modelled here from the contracts
given in the specification (§4.2).
-/

namespace MediaWall

/-- One feed post (`ApiResponseResult`): identified by an id, with an
account reference and text content used by the moderation predicates. -/
structure Entity where
  id : String
  account : String
  text : String
deriving DecidableEq, Repr

/-- Modelled from the spec: the profanity predicate is an opaque lexical
check on the post's text content; here fixed as matching one word. -/
def profaneWord : String := "damn"

/-- Modelled from the spec: opaque lexical profanity check on one entity. -/
def isProfane (e : Entity) : Bool := decide (e.text = profaneWord)

/-- Modelled from the spec: `accountExclusion(entities, blockedAccounts)`
removes all entities whose account is in `blockedAccounts`; order-preserving. -/
def accountExclusion (entities : List Entity) (blockedAccounts : List String) : List Entity :=
  entities.filter (fun e => decide (e.account ∉ blockedAccounts))

/-- Modelled from the spec: `profanityFilter(entities)` removes entities
deemed profane by the opaque lexical check; order-preserving; idempotent. -/
def profanityFilter (entities : List Entity) : List Entity :=
  entities.filter (fun e => !(isProfane e))

/-- Modelled from the spec: auxiliary recursion for duplicate removal,
keeping the first occurrence of each id. -/
def removeDuplicateCheckAux (seen : List String) : List Entity → List Entity
  | [] => []
  | e :: rest =>
    if e.id ∈ seen then removeDuplicateCheckAux seen rest
    else e :: removeDuplicateCheckAux (e.id :: seen) rest

/-- Modelled from the spec: `removeDuplicateCheck(entities)` collapses
entities considered duplicates (policy: by id); keeps first occurrence;
idempotent. -/
def removeDuplicateCheck (entities : List Entity) : List Entity :=
  removeDuplicateCheckAux [] entities

/-- Modelled from the spec: `hideFeed(entities, id)` removes the entity
with `id`. -/
def hideFeed (entities : List Entity) (i : String) : List Entity :=
  entities.filter (fun e => decide (e.id ≠ i))

/-- Modelled from the spec: `showFeed(allEntities, currentFiltered, id)`
re-adds entity `id` from `allEntities` into `currentFiltered` (insertion
position per helper policy; appended here). -/
def showFeed (allEntities currentFiltered : List Entity) (i : String) : List Entity :=
  currentFiltered ++ allEntities.filter (fun e => decide (e.id = i))

/-- Modelled from the spec: `accountInclusion(allEntities, currentFiltered,
accountId)` re-adds entities by `accountId` from `allEntities` into
`currentFiltered`; must not duplicate already-present entities (by id). -/
def accountInclusion (allEntities currentFiltered : List Entity) (accountId : String) : List Entity :=
  currentFiltered ++
    allEntities.filter (fun e =>
      decide (e.account = accountId ∧ ∀ c ∈ currentFiltered, c.id ≠ e.id))

/-- Modelled from the spec: `removeId(ids, id)` is the set/list difference
of one id. -/
def removeId (ids : List String) (i : String) : List String :=
  ids.filter (fun x => decide (x ≠ i))

/-- The discriminated action union handled by the reducer: API search and
pagination results, moderation actions, and a stand-in for any
unrecognized action kind (the reducer's `default` branch). -/
inductive Action where
  | wallSearchCompleteSuccess (statuses : List Entity)
  | wallSearchCompleteFail
  | wallPaginationCompleteSuccess (statuses : List Entity)
  | wallPaginationCompleteFail
  | wallHideFeed (i : String)
  | wallShowFeed (i : String)
  | wallBlockUser (user : String)
  | wallUnblockUser (user : String)
  | wallProfanityChangeAction (flag : Bool)
  | wallRemoveDuplicateChangeAction (flag : Bool)
  | unknown
deriving DecidableEq, Repr

/-- The moderation state slice (`State` in the source). -/
structure State where
  entities : List Entity
  filteredEntities : List Entity
  hiddenFeedId : List String
  blockedUser : List String
  profanityCheck : Bool
  removeDuplicate : Bool
deriving DecidableEq, Repr

/-- `initialState` from the source: all lists empty, both flags false. -/
def initialState : State :=
  { entities := []
    filteredEntities := []
    hiddenFeedId := []
    blockedUser := []
    profanityCheck := false
    removeDuplicate := false }

/-- The reducer, translated case by case from the source's `switch`. -/
def reducer (state : State) (action : Action) : State :=
  match action with
  | .wallSearchCompleteSuccess statuses =>
    let newFeeds := accountExclusion statuses state.blockedUser
    let newFeeds1 := if state.profanityCheck then profanityFilter newFeeds else newFeeds
    let newFeeds2 := if state.removeDuplicate then removeDuplicateCheck newFeeds1 else newFeeds1
    { state with entities := statuses, filteredEntities := newFeeds2 }
  | .wallSearchCompleteFail => state
  | .wallPaginationCompleteSuccess statuses =>
    let newFeeds := accountExclusion statuses state.blockedUser
    let newFeeds1 := if state.profanityCheck then profanityFilter statuses else newFeeds
    let filtered := newFeeds1 ++ state.filteredEntities
    let filtered1 := if state.removeDuplicate then removeDuplicateCheck filtered else filtered
    { state with entities := statuses ++ state.entities, filteredEntities := filtered1 }
  | .wallPaginationCompleteFail => state
  | .wallHideFeed i =>
    { state with
        filteredEntities := hideFeed state.filteredEntities i
        hiddenFeedId := state.hiddenFeedId ++ [i] }
  | .wallShowFeed i =>
    { state with
        filteredEntities := showFeed state.entities state.filteredEntities i
        hiddenFeedId := removeId state.hiddenFeedId i }
  | .wallBlockUser user =>
    let blockedUser := state.blockedUser ++ [user]
    { state with
        filteredEntities := accountExclusion state.filteredEntities blockedUser
        blockedUser := blockedUser }
  | .wallUnblockUser user =>
    { state with
        filteredEntities := accountInclusion state.entities state.filteredEntities user
        blockedUser := removeId state.hiddenFeedId user }
  | .wallProfanityChangeAction flag =>
    { state with
        filteredEntities := profanityFilter state.filteredEntities
        profanityCheck := flag }
  | .wallRemoveDuplicateChangeAction flag =>
    { state with
        filteredEntities := removeDuplicateCheck state.filteredEntities
        removeDuplicate := flag }
  | .unknown => state

/-- Dispatching a list of actions in order, starting from a given state. -/
def run (actions : List Action) (s : State) : State :=
  actions.foldl reducer s

/-- The six read accessors (selectors) from the source. -/
def getEntities (s : State) : List Entity := s.entities

def getFilteredEntities (s : State) : List Entity := s.filteredEntities

def getHiddenFeedId (s : State) : List String := s.hiddenFeedId

def getBlockedUser (s : State) : List String := s.blockedUser

def getProfanityCheck (s : State) : Bool := s.profanityCheck

def getDuplicateRemove (s : State) : Bool := s.removeDuplicate

/-! Concrete entities and states used in scenarios and counterexamples. -/

def acctA : String := "a"

def acctB : String := "b"

def acctC : String := "c"

def eA : Entity := { id := "1", account := "a", text := "hello" }

def eB : Entity := { id := "2", account := "b", text := "hello" }

def eC : Entity := { id := "3", account := "c", text := "hello" }

/-- State with one post by account `a`, visible, nothing blocked or hidden. -/
def sA : State :=
  { entities := [eA]
    filteredEntities := [eA]
    hiddenFeedId := []
    blockedUser := []
    profanityCheck := false
    removeDuplicate := false }

/-- State with one post each by accounts `a` and `b`, both visible. -/
def sAB : State :=
  { entities := [eA, eB]
    filteredEntities := [eA, eB]
    hiddenFeedId := []
    blockedUser := []
    profanityCheck := false
    removeDuplicate := false }

def idOne : String := "1"

/-- Claim C1: on SearchComplete success the reducer replaces `entities` with
the payload and recomputes `filteredEntities` by applying, in order,
`accountExclusion` with the blocked users, then `profanityFilter` when
`profanityCheck`, then `removeDuplicateCheck` when `removeDuplicate`; with
no blocked users and both flags off, both fields equal the payload. -/
theorem c1_search_complete_success (s : State) (posts : List Entity) :
    (reducer s (.wallSearchCompleteSuccess posts)).entities = posts ∧
    (reducer s (.wallSearchCompleteSuccess posts)).filteredEntities =
      (let f1 := accountExclusion posts s.blockedUser
       let f2 := if s.profanityCheck then profanityFilter f1 else f1
       if s.removeDuplicate then removeDuplicateCheck f2 else f2) ∧
    (s.blockedUser = [] → s.profanityCheck = false → s.removeDuplicate = false →
      (reducer s (.wallSearchCompleteSuccess posts)).filteredEntities = posts ∧
      (reducer s (.wallSearchCompleteSuccess posts)).entities = posts) := by
  refine ⟨rfl, rfl, ?_⟩
  intro hb hp hr
  simp [reducer, hb, hp, hr, accountExclusion]

/-- Witness for C1: searching from the initial state with one post makes both
`entities` and `filteredEntities` equal to the payload. -/
theorem c1_witness :
    (reducer initialState (.wallSearchCompleteSuccess [eA])).filteredEntities = [eA] ∧
    (reducer initialState (.wallSearchCompleteSuccess [eA])).entities = [eA] :=
  (c1_search_complete_success initialState [eA]).2.2 rfl rfl rfl

/-- Claim C2: on PaginationComplete success the reducer prepends the raw posts
to `entities`; the candidate additions are `accountExclusion` of the posts,
except that when `profanityCheck` is set they are `profanityFilter` of the raw
posts instead; the candidates are prepended to `filteredEntities` and the
combined list is deduplicated exactly when `removeDuplicate` is set. The
concrete no-filter scenario from the spec is included. -/
theorem c2_pagination_complete_success (s : State) (posts : List Entity) :
    ((reducer s (.wallPaginationCompleteSuccess posts)).entities = posts ++ s.entities ∧
     (reducer s (.wallPaginationCompleteSuccess posts)).filteredEntities =
       (let cand := if s.profanityCheck then profanityFilter posts
                    else accountExclusion posts s.blockedUser
        let comb := cand ++ s.filteredEntities
        if s.removeDuplicate then removeDuplicateCheck comb else comb)) ∧
    reducer sA (.wallPaginationCompleteSuccess [eC]) =
      { sA with entities := [eC, eA], filteredEntities := [eC, eA] } := by
  exact ⟨⟨rfl, rfl⟩, by decide⟩

/-- Claim C4: SearchComplete fail, PaginationComplete fail and any
unrecognized action kind all return the state unchanged. -/
theorem c4_no_op_actions (s : State) :
    reducer s .wallSearchCompleteFail = s ∧
    reducer s .wallPaginationCompleteFail = s ∧
    reducer s .unknown = s :=
  ⟨rfl, rfl, rfl⟩

/-- Claim C7: ProfanityToggle applies `profanityFilter` to the current
`filteredEntities` and stores the flag; DuplicateToggle applies
`removeDuplicateCheck` to the current `filteredEntities` and stores the flag;
in both cases the filter runs regardless of the flag's value and nothing is
re-derived from `entities`. -/
theorem c7_toggles (s : State) (b : Bool) :
    reducer s (.wallProfanityChangeAction b) =
      { s with filteredEntities := profanityFilter s.filteredEntities
               profanityCheck := b } ∧
    reducer s (.wallRemoveDuplicateChangeAction b) =
      { s with filteredEntities := removeDuplicateCheck s.filteredEntities
               removeDuplicate := b } :=
  ⟨rfl, rfl⟩

/-- Claim C8: HideFeed removes the entity with the given id from
`filteredEntities` via `hideFeed` and appends the id to `hiddenFeedId`
without any uniqueness check, so hiding the same id twice yields two
occurrences of it. -/
theorem c8_hide_feed (s : State) (i : String) :
    reducer s (.wallHideFeed i) =
      { s with filteredEntities := hideFeed s.filteredEntities i
               hiddenFeedId := s.hiddenFeedId ++ [i] } ∧
    (∀ e ∈ (reducer s (.wallHideFeed i)).filteredEntities, e.id ≠ i) ∧
    (reducer (reducer s (.wallHideFeed i)) (.wallHideFeed i)).hiddenFeedId
      = s.hiddenFeedId ++ [i, i] := by
  refine ⟨rfl, ?_, by simp [reducer]⟩
  intro e he
  simp [reducer, hideFeed, List.mem_filter] at he
  exact he.2

/-- Witness for C8: hiding id `1` from the two-post state leaves the surviving
post with a different id. -/
theorem c8_witness : eB.id ≠ idOne :=
  (c8_hide_feed sAB idOne).2.1 eB (by decide)

/-- State with one visible post by account `b` while `b` is already in the
blocked list (reachable, e.g. by hiding the post, blocking `b`, then showing
the post again). -/
def sStaleB : State :=
  { entities := [eB]
    filteredEntities := [eB]
    hiddenFeedId := []
    blockedUser := [acctB]
    profanityCheck := false
    removeDuplicate := false }

/-- Counterexample to C3: from a state with one visible post by account `a`,
BlockUser then UnblockUser of `a` restores the post to `filteredEntities`
(via `accountInclusion`) and leaves `blockedUser` empty, so `a` is not still
a member of `blockedUser`. -/
theorem c3_counterexample :
    eA ∈ sA.entities ∧ eA.account = acctA ∧
    (reducer (reducer sA (.wallBlockUser acctA)) (.wallUnblockUser acctA)).filteredEntities
      = [eA] ∧
    (reducer (reducer sA (.wallBlockUser acctA)) (.wallUnblockUser acctA)).blockedUser
      = [] := by decide

/-- Claim C3 (amended): after BlockUser(u) then UnblockUser(u), posts by `u`
from `entities` ARE restored to `filteredEntities` (provided any entity in
`filteredEntities` sharing their id is itself authored by `u`), and
`blockedUser` is overwritten with `removeId` of `hiddenFeedId`, so `u` is
never a member of the resulting `blockedUser`. -/
theorem c3_amended (s : State) (u : String) (e : Entity)
    (he : e ∈ s.entities) (ha : e.account = u)
    (hid : ∀ f ∈ s.filteredEntities, f.id = e.id → f.account = u) :
    e ∈ (reducer (reducer s (.wallBlockUser u)) (.wallUnblockUser u)).filteredEntities ∧
    (reducer (reducer s (.wallBlockUser u)) (.wallUnblockUser u)).blockedUser
      = removeId s.hiddenFeedId u ∧
    u ∉ (reducer (reducer s (.wallBlockUser u)) (.wallUnblockUser u)).blockedUser := by
  have hstep : ∀ c ∈ accountExclusion s.filteredEntities (s.blockedUser ++ [u]),
      c.id ≠ e.id := by
    intro c hc hce
    have hc2 := List.mem_filter.mp hc
    have hnb : c.account ∉ s.blockedUser ++ [u] := of_decide_eq_true hc2.2
    exact hnb (by
      rw [hid c hc2.1 hce]
      exact List.mem_append_right _ (List.mem_singleton.mpr rfl))
  refine ⟨?_, rfl, ?_⟩
  · show e ∈ accountInclusion s.entities
      (accountExclusion s.filteredEntities (s.blockedUser ++ [u])) u
    refine List.mem_append_right _ (List.mem_filter.mpr ⟨he, decide_eq_true ?_⟩)
    exact ⟨ha, fun c hc => hstep c hc⟩
  · intro hu
    have h2 := List.mem_filter.mp hu
    exact absurd rfl (of_decide_eq_true h2.2)

/-- Witness for C3 (amended): blocking then unblocking `a` on the one-post
state restores the post and does not leave `a` blocked. -/
theorem c3_witness :
    eA ∈ (reducer (reducer sA (.wallBlockUser acctA)) (.wallUnblockUser acctA)).filteredEntities ∧
    acctA ∉ (reducer (reducer sA (.wallBlockUser acctA)) (.wallUnblockUser acctA)).blockedUser :=
  ⟨(c3_amended sA acctA eA (by decide) rfl (by decide)).1,
   (c3_amended sA acctA eA (by decide) rfl (by decide)).2.2⟩

/-- Counterexample to C6: when a post by the already-blocked account `b` is
still visible, BlockUser("a") also removes that post from `filteredEntities`,
so entities by authors other than the newly blocked one are not untouched. -/
theorem c6_counterexample :
    eB ∈ sStaleB.filteredEntities ∧ eB.account ≠ acctA ∧
    (reducer sStaleB (.wallBlockUser acctA)).filteredEntities = [] := by decide

/-- Claim C6 (amended): BlockUser(u) appends `u` to `blockedUser`, leaves
`entities` unchanged, and recomputes `filteredEntities` by excluding the FULL
updated blocked set: every surviving entity is not authored by `u`, and
entities authored neither by `u` nor by any previously blocked account are
untouched. The spec's concrete scenario (empty prior blocked list) holds. -/
theorem c6_block_user (s : State) (u : String) :
    ((reducer s (.wallBlockUser u)).filteredEntities
       = accountExclusion s.filteredEntities (s.blockedUser ++ [u]) ∧
     (∀ e ∈ (reducer s (.wallBlockUser u)).filteredEntities, e.account ≠ u) ∧
     (∀ e ∈ s.filteredEntities, e.account ≠ u → e.account ∉ s.blockedUser →
        e ∈ (reducer s (.wallBlockUser u)).filteredEntities) ∧
     (reducer s (.wallBlockUser u)).blockedUser = s.blockedUser ++ [u] ∧
     (reducer s (.wallBlockUser u)).entities = s.entities) ∧
    reducer sAB (.wallBlockUser acctA)
      = { sAB with filteredEntities := [eB], blockedUser := [acctA] } := by
  refine ⟨⟨rfl, ?_, ?_, rfl, rfl⟩, by decide⟩
  · intro e he heq
    have h2 := List.mem_filter.mp he
    exact (of_decide_eq_true h2.2)
      (heq ▸ List.mem_append_right _ (List.mem_singleton.mpr rfl))
  · intro e he hu hb
    refine List.mem_filter.mpr ⟨he, decide_eq_true ?_⟩
    intro hmem
    rcases List.mem_append.mp hmem with h1 | h1
    · exact hb h1
    · exact hu (List.mem_singleton.mp h1)

/-- Witness for C6 (amended): in the two-author scenario, blocking `a` keeps
the post by `b` in `filteredEntities`. -/
theorem c6_witness :
    eB ∈ (reducer sAB (.wallBlockUser acctA)).filteredEntities :=
  (c6_block_user sAB acctA).1.2.2.1 eB (by decide) (by decide) (by decide)

/-- Claim C10: UnblockUser leaves `hiddenFeedId`, `entities`,
`profanityCheck` and `removeDuplicate` unchanged; it overwrites
`blockedUser` with `removeId` applied to the hidden-feed-id list and
recomputes `filteredEntities` with `accountInclusion`. -/
theorem c10_unblock_frame (s : State) (u : String) :
    (reducer s (.wallUnblockUser u)).hiddenFeedId = s.hiddenFeedId ∧
    (reducer s (.wallUnblockUser u)).blockedUser = removeId s.hiddenFeedId u ∧
    (reducer s (.wallUnblockUser u)).entities = s.entities ∧
    (reducer s (.wallUnblockUser u)).profanityCheck = s.profanityCheck ∧
    (reducer s (.wallUnblockUser u)).removeDuplicate = s.removeDuplicate ∧
    (reducer s (.wallUnblockUser u)).filteredEntities
      = accountInclusion s.entities s.filteredEntities u :=
  ⟨rfl, rfl, rfl, rfl, rfl, rfl⟩

/-- State whose visible post has id `1` while id `1` is already recorded in
`hiddenFeedId` and absent from `entities` (reachable, e.g. when a later
search replaced `entities` after a hide). -/
def sHidden : State :=
  { entities := []
    filteredEntities := [eA]
    hiddenFeedId := [idOne]
    blockedUser := []
    profanityCheck := false
    removeDuplicate := false }

/-- Counterexample to C5: id `1` is present in `filteredEntities`, yet
HideFeed then ShowFeed of `1` empties `filteredEntities` (nothing with that
id is in `entities` to restore) and empties `hiddenFeedId` (`removeId`
deletes the pre-existing occurrence of `1` as well), so neither field is
restored. -/
theorem c5_counterexample :
    (∃ e ∈ sHidden.filteredEntities, e.id = idOne) ∧
    ¬ ((reducer (reducer sHidden (.wallHideFeed idOne))
          (.wallShowFeed idOne)).filteredEntities).Perm sHidden.filteredEntities ∧
    (reducer (reducer sHidden (.wallHideFeed idOne)) (.wallShowFeed idOne)).hiddenFeedId
      ≠ sHidden.hiddenFeedId := by
  refine ⟨⟨eA, by decide, rfl⟩, ?_, by decide⟩
  intro hperm
  have hlen := hperm.length_eq
  simp [reducer, sHidden, hideFeed, showFeed, eA, idOne] at hlen

/-- Claim C5 (amended): if some entity in `filteredEntities` has the given
id, the id does not already occur in `hiddenFeedId`, and the entities
carrying that id in `filteredEntities` are, up to permutation, exactly those
carrying it in `entities`, then HideFeed followed by ShowFeed of that id
returns `filteredEntities` to a permutation of its previous content and
`hiddenFeedId` to exactly its previous value. -/
theorem c5_hide_show_roundtrip (s : State) (i : String)
    (_hmem : ∃ e ∈ s.filteredEntities, e.id = i)
    (hhid : i ∉ s.hiddenFeedId)
    (hsame : (s.filteredEntities.filter (fun e => decide (e.id = i))).Perm
             (s.entities.filter (fun e => decide (e.id = i)))) :
    ((reducer (reducer s (.wallHideFeed i)) (.wallShowFeed i)).filteredEntities).Perm
      s.filteredEntities ∧
    (reducer (reducer s (.wallHideFeed i)) (.wallShowFeed i)).hiddenFeedId
      = s.hiddenFeedId := by
  constructor
  · show ((hideFeed s.filteredEntities i) ++
      s.entities.filter (fun e => decide (e.id = i))).Perm s.filteredEntities
    refine List.Perm.trans (List.Perm.append_left _ hsame.symm) ?_
    refine List.Perm.trans List.perm_append_comm ?_
    have hq : hideFeed s.filteredEntities i
        = s.filteredEntities.filter (fun e => !(decide (e.id = i))) := by
      simp only [hideFeed, ne_eq, decide_not]
    rw [hq]
    exact List.filter_append_perm _ _
  · show removeId (s.hiddenFeedId ++ [i]) i = s.hiddenFeedId
    simp only [removeId, List.filter_append]
    have h1 : List.filter (fun x => decide (x ≠ i)) [i] = [] := by simp
    rw [h1, List.append_nil]
    exact List.filter_eq_self.mpr
      (fun a ha => decide_eq_true (fun hai => hhid (hai ▸ ha)))

/-- Witness for C5 (amended): on the clean one-post state, hide then show of
id `1` restores both fields. -/
theorem c5_witness :
    ((reducer (reducer sA (.wallHideFeed idOne)) (.wallShowFeed idOne)).filteredEntities).Perm
      sA.filteredEntities ∧
    (reducer (reducer sA (.wallHideFeed idOne)) (.wallShowFeed idOne)).hiddenFeedId
      = sA.hiddenFeedId :=
  c5_hide_show_roundtrip sA idOne ⟨eA, by decide, rfl⟩ (by decide) (List.Perm.refl _)

/-! Helper lemmas for the reachability invariant (C9): every filter helper
returns a sub-collection of its main input. -/

theorem mem_of_mem_removeDuplicateCheckAux {seen : List String} {l : List Entity}
    {e : Entity} (h : e ∈ removeDuplicateCheckAux seen l) : e ∈ l := by
  induction l generalizing seen with
  | nil => simp [removeDuplicateCheckAux] at h
  | cons x xs ih =>
    by_cases hx : x.id ∈ seen
    · simp only [removeDuplicateCheckAux, if_pos hx] at h
      exact List.mem_cons_of_mem _ (ih h)
    · simp only [removeDuplicateCheckAux, if_neg hx] at h
      rcases List.mem_cons.mp h with h1 | h2
      · exact h1 ▸ List.mem_cons_self _ _
      · exact List.mem_cons_of_mem _ (ih h2)

theorem mem_of_mem_removeDuplicateCheck {l : List Entity} {e : Entity}
    (h : e ∈ removeDuplicateCheck l) : e ∈ l :=
  mem_of_mem_removeDuplicateCheckAux h

theorem mem_of_mem_optDedup {b : Bool} {l : List Entity} {e : Entity}
    (h : e ∈ (if b then removeDuplicateCheck l else l)) : e ∈ l := by
  cases b with
  | false => simpa using h
  | true => exact mem_of_mem_removeDuplicateCheck (by simpa using h)

theorem mem_of_mem_optProf {b : Bool} {l : List Entity} {e : Entity}
    (h : e ∈ (if b then profanityFilter l else l)) : e ∈ l := by
  cases b with
  | false => simpa using h
  | true =>
    have h2 : e ∈ profanityFilter l := by simpa only [if_pos] using h
    exact (List.mem_filter.mp h2).1

theorem mem_of_mem_paginationCand {b : Bool} {posts : List Entity}
    {bs : List String} {e : Entity}
    (h : e ∈ (if b then profanityFilter posts else accountExclusion posts bs)) :
    e ∈ posts := by
  cases b with
  | false =>
    have h2 : e ∈ accountExclusion posts bs := by simpa only [if_neg] using h
    exact (List.mem_filter.mp h2).1
  | true =>
    have h2 : e ∈ profanityFilter posts := by simpa only [if_pos] using h
    exact (List.mem_filter.mp h2).1

/-- One reducer step preserves "every filtered entity occurs in entities". -/
theorem reducer_filtered_sub_entities (s : State) (a : Action)
    (h : ∀ e ∈ s.filteredEntities, e ∈ s.entities) :
    ∀ e ∈ (reducer s a).filteredEntities, e ∈ (reducer s a).entities := by
  cases a with
  | wallSearchCompleteSuccess posts =>
    intro e he
    exact (List.mem_filter.mp (mem_of_mem_optProf (mem_of_mem_optDedup he))).1
  | wallSearchCompleteFail => exact h
  | wallPaginationCompleteSuccess posts =>
    intro e he
    have h2 : e ∈ (if s.profanityCheck then profanityFilter posts
        else accountExclusion posts s.blockedUser) ++ s.filteredEntities :=
      mem_of_mem_optDedup he
    show e ∈ posts ++ s.entities
    rcases List.mem_append.mp h2 with h3 | h3
    · exact List.mem_append_left _ (mem_of_mem_paginationCand h3)
    · exact List.mem_append_right _ (h e h3)
  | wallPaginationCompleteFail => exact h
  | wallHideFeed i =>
    intro e he
    exact h e (List.mem_filter.mp he).1
  | wallShowFeed i =>
    intro e he
    rcases List.mem_append.mp he with h3 | h3
    · exact h e h3
    · exact (List.mem_filter.mp h3).1
  | wallBlockUser u =>
    intro e he
    exact h e (List.mem_filter.mp he).1
  | wallUnblockUser u =>
    intro e he
    rcases List.mem_append.mp he with h3 | h3
    · exact h e h3
    · exact (List.mem_filter.mp h3).1
  | wallProfanityChangeAction flag =>
    intro e he
    exact h e (List.mem_filter.mp he).1
  | wallRemoveDuplicateChangeAction flag =>
    intro e he
    exact h e (mem_of_mem_removeDuplicateCheck he)
  | unknown => exact h

/-- Any run preserves "every filtered entity occurs in entities". -/
theorem run_filtered_sub_entities (actions : List Action) (s : State)
    (h : ∀ e ∈ s.filteredEntities, e ∈ s.entities) :
    ∀ e ∈ (run actions s).filteredEntities, e ∈ (run actions s).entities := by
  induction actions generalizing s with
  | nil => exact h
  | cons a rest ih => exact ih (reducer s a) (reducer_filtered_sub_entities s a h)

/-- Claim C9: for every state reached from `initialState` by a sequence of
actions, every id occurring in `filteredEntities` also occurs in `entities`
(here in the stronger, entity-level form specialised to ids). -/
theorem c9_filtered_subset_by_id (actions : List Action) (e : Entity)
    (he : e ∈ (run actions initialState).filteredEntities) :
    ∃ e2 ∈ (run actions initialState).entities, e2.id = e.id :=
  ⟨e, run_filtered_sub_entities actions initialState
        (by intro x hx; simp [initialState] at hx) e he, rfl⟩

/-- Witness for C9: after one successful search, the visible post's id is in
`entities`. -/
theorem c9_witness :
    ∃ e2 ∈ (run [Action.wallSearchCompleteSuccess [eA]] initialState).entities,
      e2.id = eA.id :=
  c9_filtered_subset_by_id [Action.wallSearchCompleteSuccess [eA]] eA (by decide)

end MediaWall
